import Mathlib

/-!
Shallow embedding of the Daytona repository-selection wizard
(`pkg/cmd/workspace/util/repository_wizard.go`) and of
`GitProviderService.GetRepoBranches` (`pkg/server/gitproviders/branches.go`).

External collaborators (the REST client, the interactive prompts, the
URL-input view and the branch wizard) are modelled as oracle parameters;
the control flow of the wizard itself is translated statement by statement
from the Go source.  Go `int32` page arithmetic is modelled on `Int` with
explicit two's-complement wrapping.  Each wizard run is instrumented with a
trace of fetch/prompt events so that claims about which network queries and
prompts occur can be stated.
-/

namespace Daytona

/-! ## Data model (apiclient / view structs used by the wizard) -/

structure GitNamespace where
  Id : String
  Name : String
deriving DecidableEq, Repr

structure GitRepository where
  Id : String
  Url : String
  Name : String
  Branch : String
deriving DecidableEq, Repr

structure GitProvider where
  Id : String
  ProviderId : String
  Username : String
  Alias : String
deriving DecidableEq, Repr

structure SupportedProvider where
  Id : String
  Name : String
deriving DecidableEq, Repr

structure GitProviderView where
  Id : String
  ProviderId : String
  Name : String
  Username : String
  Alias : String
deriving DecidableEq, Repr

structure Sample where
  Name : String
  GitUrl : String
deriving DecidableEq, Repr

/-- Errors returned by the wizard: the distinguished cancellation sentinel
`common.ErrCtrlCAbort`, or an ordinary error carrying its message. -/
inductive WizError where
  | ctrlCAbort
  | apiError (msg : String)
deriving DecidableEq, Repr

/-- Observable actions of a wizard run: network fetches and user prompts. -/
inductive Event where
  | fetchSamples
  | promptProvider
  | promptSample
  | fetchGitContext (url : String)
  | manualEntry
  | fetchNamespaces (page : Int)
  | promptNamespaces (page : Int)
  | fetchRepositories (page : Int)
  | promptRepositories (page : Int)
  | branchWizard
deriving DecidableEq, Repr

/-- Two's-complement wrap to Go's `int32` range. -/
def wrap32 (n : Int) : Int := (n + 2 ^ 31) % 2 ^ 32 - 2 ^ 31

instance {ε α : Type} [DecidableEq ε] [DecidableEq α] : DecidableEq (Except ε α) := by
  intro a b
  cases a <;> cases b
  case error.error e e' =>
    exact if h : e = e' then .isTrue (by rw [h]) else .isFalse (by intro hh; cases hh; exact h rfl)
  case ok.ok v v' =>
    exact if h : v = v' then .isTrue (by rw [h]) else .isFalse (by intro hh; cases hh; exact h rfl)
  case error.ok e v => exact .isFalse (by intro hh; cases hh)
  case ok.error v e => exact .isFalse (by intro hh; cases hh)

/-! ## Provider pagination quirks -/

/-- `isGitProviderWithUnsupportedPagination` from repository_wizard.go:
a switch returning `true` exactly for the four listed provider ids. -/
def isGitProviderWithUnsupportedPagination (providerId : String) : Bool :=
  if providerId == "azure-devops" || providerId == "bitbucket" ||
      providerId == "gitness" || providerId == "aws-codecommit" then
    true
  else
    false

/-- The pagination-disabled test used by the namespace loop (line 141). -/
def namespacePaginationDisabled (providerId : String) : Bool :=
  isGitProviderWithUnsupportedPagination providerId

/-- The pagination-disabled test used by the repository loop (line 195):
bitbucket supports pagination for its GET-repositories API. -/
def repositoryPaginationDisabled (providerId : String) : Bool :=
  isGitProviderWithUnsupportedPagination providerId && providerId != "bitbucket"

/-- Modelled from the spec: the loading-spinner helper
`views_util.WithSpinner` (its definition is not part of the excerpt) runs
the given closure and yields that closure's own result; the spec treats the
paged query as a black box whose failure "propagates immediately". -/
def WithSpinner {α : Type} (fn : Except String α) : Except String α := fn

/-! ## Namespace navigation loop (lines 110-168) -/

/-- Mutable state of the namespace loop: the current page, the
`isOnlySingleNamespaceAvailable` flag and the `namespace` accumulator. -/
structure NsState where
  page : Int
  singleAvail : Bool
  namespaceName : String
deriving DecidableEq, Repr

/-- The Go scans `for _, item := range list { if item.Id == id { name = item.Name } }`:
the last matching item wins, otherwise the previous value is kept. -/
def findName (l : List GitNamespace) (nsId : String) (dflt : String) : String :=
  l.foldl (fun acc item => if item.Id == nsId then item.Name else acc) dflt

/-- One iteration of the namespace `for` loop.  Returns an error (fetch
failure or abort), `.inl s'` to continue with state `s'`, or
`.inr (namespaceId, namespace)` on `break`; paired with the iteration's
event trace. -/
def nsIter (providerId : String)
    (fetchNs : Int → Except String (List GitNamespace))
    (promptNs : List GitNamespace → Int → String × String)
    (s : NsState) :
    Except WizError (NsState ⊕ (String × String)) × List Event :=
  match WithSpinner (fetchNs s.page) with
  | .error e => (.error (.apiError e), [.fetchNamespaces s.page])
  | .ok namespaceList =>
    if h : s.singleAvail && namespaceList.length == 1 then
      have hlen : 0 < namespaceList.length := by
        simp only [Bool.and_eq_true, beq_iff_eq] at h
        omega
      (.ok (.inr ((namespaceList.get ⟨0, hlen⟩).Id, (namespaceList.get ⟨0, hlen⟩).Name)),
        [.fetchNamespaces s.page])
    else
      let s₁ : NsState := { s with singleAvail := false }
      let disabled := namespacePaginationDisabled providerId
      let pr := promptNs namespaceList s₁.page
      let namespaceId := pr.1
      let navigate := pr.2
      let out : Except WizError (NsState ⊕ (String × String)) :=
        if !disabled && navigate != "" then
          if navigate == "next" then
            .ok (.inl { s₁ with page := wrap32 (s₁.page + 1) })
          else if navigate == "prev" && decide (s₁.page > 1) then
            .ok (.inl { s₁ with page := wrap32 (s₁.page - 1) })
          else
            .ok (.inl { s₁ with namespaceName := findName namespaceList namespaceId s₁.namespaceName })
        else if namespaceId != "" then
          .ok (.inr (namespaceId, findName namespaceList namespaceId s₁.namespaceName))
        else
          .error .ctrlCAbort
      (out, [Event.fetchNamespaces s.page, Event.promptNamespaces s.page])

/-- The namespace loop, run with explicit fuel.  `none` means the loop has
not terminated within `fuel` iterations. -/
def nsLoop (providerId : String)
    (fetchNs : Int → Except String (List GitNamespace))
    (promptNs : List GitNamespace → Int → String × String) :
    Nat → NsState → Option (Except WizError (String × String)) × List Event
  | 0, _ => (none, [])
  | fuel + 1, s =>
    match nsIter providerId fetchNs promptNs s with
    | (.error e, tr) => (some (.error e), tr)
    | (.ok (.inr r), tr) => (some (.ok r), tr)
    | (.ok (.inl s'), tr) =>
      let rest := nsLoop providerId fetchNs promptNs fuel s'
      (rest.1, tr ++ rest.2)

/-! ## Repository navigation loop (lines 170-213) -/

/-- One iteration of the repository `for` loop.  Returns an error, `.inl page'`
to continue, or `.inr chosenRepo` on `break`; paired with its event trace. -/
def repoIter (providerId : String)
    (fetchRepos : Int → Except String (List GitRepository))
    (promptRepo : List GitRepository → Int → Option GitRepository × String)
    (page : Int) :
    Except WizError (Int ⊕ GitRepository) × List Event :=
  match WithSpinner (fetchRepos page) with
  | .error e => (.error (.apiError e), [.fetchRepositories page])
  | .ok providerRepos =>
    let disabled := repositoryPaginationDisabled providerId
    let pr := promptRepo providerRepos page
    let chosenRepo := pr.1
    let navigate := pr.2
    let out : Except WizError (Int ⊕ GitRepository) :=
      if !disabled && navigate != "" then
        if navigate == "next" then
          .ok (.inl (wrap32 (page + 1)))
        else if navigate == "prev" && decide (page > 1) then
          .ok (.inl (wrap32 (page - 1)))
        else
          .ok (.inl page)
      else
        match chosenRepo with
        | some r => .ok (.inr r)
        | none => .error .ctrlCAbort
    (out, [Event.fetchRepositories page, Event.promptRepositories page])

/-- The repository loop, run with explicit fuel. -/
def repoLoop (providerId : String)
    (fetchRepos : Int → Except String (List GitRepository))
    (promptRepo : List GitRepository → Int → Option GitRepository × String) :
    Nat → Int → Option (Except WizError GitRepository) × List Event
  | 0, _ => (none, [])
  | fuel + 1, page =>
    match repoIter providerId fetchRepos promptRepo page with
    | (.error e, tr) => (some (.error e), tr)
    | (.ok (.inr r), tr) => (some (.ok r), tr)
    | (.ok (.inl page'), tr) =>
      let rest := repoLoop providerId fetchRepos promptRepo fuel page'
      (rest.1, tr ++ rest.2)

/-! ## Wizard orchestrator (lines 41-228) -/

/-- Modelled from the spec: the selection view's distinguished identifier for
the "custom URL" prompt option (`selection.CustomRepoIdentifier`, defined in
the excluded prompt collaborator). -/
def CustomRepoIdentifier : String := "<CUSTOM_REPO>"

/-- Modelled from the spec: the selection view's distinguished identifier for
the "create from sample" prompt option (`selection.CREATE_FROM_SAMPLE`,
defined in the excluded prompt collaborator). -/
def CREATE_FROM_SAMPLE : String := "<CREATE_FROM_SAMPLE>"

structure RepositoryWizardConfig where
  UserGitProviders : List GitProvider
  Manual : Bool
  SkipBranchSelection : Bool
deriving Repr

/-- The view-list construction of lines 61-76: for each configured provider,
scan the supported providers and append a view for every id match. -/
def buildGitProviderViewList (userGitProviders : List GitProvider)
    (supportedProviders : List SupportedProvider) : List GitProviderView :=
  userGitProviders.flatMap fun gitProvider =>
    supportedProviders.filterMap fun supportedProvider =>
      if gitProvider.ProviderId == supportedProvider.Id then
        some { Id := gitProvider.Id, ProviderId := gitProvider.ProviderId,
               Name := supportedProvider.Name, Username := gitProvider.Username,
               Alias := gitProvider.Alias }
      else
        none

/-- Lines 103-108: the last view whose `Id` matches the chosen config id
sets `providerId`; the zero value `""` if none matches. -/
def resolveProviderId (l : List GitProviderView) (cfgId : String) : String :=
  l.foldl (fun acc gp => if gp.Id == cfgId then gp.ProviderId else acc) ""

/-- External collaborators of the wizard, as oracles.  Prompts are modelled
as functions of the data they are shown (items and current page). -/
structure WizardOracles where
  listSamples : Except String (List Sample)
  urlInput : Except WizError GitRepository
  promptProvider : List GitProviderView → Bool → String
  promptSample : List Sample → Option Sample
  getGitContext : String → Except String GitRepository
  fetchNs : String → Int → Except String (List GitNamespace)
  promptNs : List GitNamespace → Int → String × String
  fetchRepos : String → String → Int → Except String (List GitRepository)
  promptRepo : List GitRepository → Int → Option GitRepository × String
  setBranch : GitRepository → Except WizError GitRepository

/-- The samples value after the initial `ListSamples` call: on error the Go
slice stays `nil` (the failure is only logged) and the run continues. -/
def samplesAfterFetch (o : WizardOracles) : List Sample :=
  match o.listSamples with
  | .ok s => s
  | .error _ => []

/-- `getRepositoryFromWizard`, instrumented with an event trace.  `none`
means a navigation loop did not terminate within its fuel. -/
def getRepositoryFromWizard (supported : List SupportedProvider)
    (o : WizardOracles) (config : RepositoryWizardConfig)
    (nsFuel repoFuel : Nat) :
    Option (Except WizError GitRepository) × List Event :=
  let samples := samplesAfterFetch o
  if (config.UserGitProviders.length == 0 && samples.length == 0) || config.Manual then
    (some o.urlInput, [.fetchSamples, .manualEntry])
  else
    let gitProviderViewList := buildGitProviderViewList config.UserGitProviders supported
    let gitProviderConfigId := o.promptProvider gitProviderViewList (samples.length > 0)
    let trP := [Event.fetchSamples, Event.promptProvider]
    if gitProviderConfigId == "" then
      (some (.error .ctrlCAbort), trP)
    else if gitProviderConfigId == CustomRepoIdentifier then
      (some o.urlInput, trP ++ [.manualEntry])
    else if gitProviderConfigId == CREATE_FROM_SAMPLE then
      match o.promptSample samples with
      | none => (some (.error .ctrlCAbort), trP ++ [.promptSample])
      | some sample =>
        match o.getGitContext sample.GitUrl with
        | .error e =>
          (some (.error (.apiError e)), trP ++ [.promptSample, .fetchGitContext sample.GitUrl])
        | .ok repo =>
          (some (.ok repo), trP ++ [.promptSample, .fetchGitContext sample.GitUrl])
    else
      let providerId := resolveProviderId gitProviderViewList gitProviderConfigId
      let nsRes := nsLoop providerId (o.fetchNs providerId) o.promptNs nsFuel ⟨1, true, ""⟩
      match nsRes.1 with
      | none => (none, trP ++ nsRes.2)
      | some (.error e) => (some (.error e), trP ++ nsRes.2)
      | some (.ok nsSel) =>
        let namespaceId := nsSel.1
        let repoRes := repoLoop providerId (o.fetchRepos providerId namespaceId)
          o.promptRepo repoFuel 1
        match repoRes.1 with
        | none => (none, trP ++ nsRes.2 ++ repoRes.2)
        | some (.error e) => (some (.error e), trP ++ nsRes.2 ++ repoRes.2)
        | some (.ok chosenRepo) =>
          if config.SkipBranchSelection then
            (some (.ok chosenRepo), trP ++ nsRes.2 ++ repoRes.2)
          else
            (some (o.setBranch chosenRepo), trP ++ nsRes.2 ++ repoRes.2 ++ [.branchWizard])

/-! ## GetRepoBranches (pkg/server/gitproviders/branches.go) -/

structure ListOptions where
  Page : Int
  PerPage : Int
deriving DecidableEq, Repr

structure GitBranch where
  Name : String
  Sha : String
deriving DecidableEq, Repr

/-- A resolved git provider: the part of the provider interface that
`GetRepoBranches` calls. -/
structure GitProviderIface where
  GetRepoBranches : String → String → ListOptions → Except String (List GitBranch)

/-- The service: provider lookup by config id. -/
structure GitProviderService where
  GetGitProvider : String → Except String GitProviderIface

/-- `GetRepoBranches` from branches.go: look up the provider, then list the
branches, wrapping each failure with its fixed context string
(`fmt.Errorf("...: %w", err)`). -/
def GetRepoBranches (s : GitProviderService)
    (gitProviderId namespaceId repositoryId : String) (options : ListOptions) :
    Except String (List GitBranch) :=
  match s.GetGitProvider gitProviderId with
  | .error err => .error ("failed to get git provider: " ++ err)
  | .ok gitProvider =>
    match gitProvider.GetRepoBranches repositoryId namespaceId options with
    | .error err => .error ("failed to get branches: " ++ err)
    | .ok response => .ok response

/-! ## Concrete fixtures used by witnesses and counterexamples -/

def nsA : GitNamespace := ⟨"ns1", "Org One"⟩
def nsB : GitNamespace := ⟨"ns2", "Org Two"⟩
def repoA : GitRepository := ⟨"r1", "https://example.com/r1", "repo-one", ""⟩
def repoB : GitRepository := ⟨"r2", "https://example.com/r2", "repo-two", ""⟩

def nsFetchOne : Int → Except String (List GitNamespace) := fun _ => .ok [nsA]
def nsFetchTwo : Int → Except String (List GitNamespace) := fun _ => .ok [nsA, nsB]
def nsFetchFail : Int → Except String (List GitNamespace) := fun _ => .error "boom"
def nsPromptCancel : List GitNamespace → Int → String × String := fun _ _ => ("", "")
def nsPromptPrev : List GitNamespace → Int → String × String := fun _ _ => ("", "prev")
def nsPromptNext : List GitNamespace → Int → String × String := fun _ _ => ("", "next")
def nsPromptPick : List GitNamespace → Int → String × String := fun _ _ => ("ns2", "")

def repoFetchTwo : Int → Except String (List GitRepository) := fun _ => .ok [repoA, repoB]
def repoFetchFail : Int → Except String (List GitRepository) := fun _ => .error "crash"
def repoPromptCancel : List GitRepository → Int → Option GitRepository × String :=
  fun _ _ => (none, "")
def repoPromptPrev : List GitRepository → Int → Option GitRepository × String :=
  fun _ _ => (none, "prev")
def repoPromptNext : List GitRepository → Int → Option GitRepository × String :=
  fun _ _ => (none, "next")
def repoPromptPick : List GitRepository → Int → Option GitRepository × String :=
  fun _ _ => (some repoA, "")

def gpCfg : GitProvider := ⟨"cfg1", "github", "alice", ""⟩
def spGithub : SupportedProvider := ⟨"github", "GitHub"⟩
def spGitlab : SupportedProvider := ⟨"gitlab", "GitLab"⟩

def sampleA : Sample := ⟨"sample-one", "https://example.com/sample"⟩

def branchMain : GitBranch := ⟨"main", "abc123"⟩

def ifaceOk : GitProviderIface := ⟨fun _ _ _ => .ok [branchMain]⟩

def svcOk : GitProviderService :=
  ⟨fun gid => if gid == "g1" then .ok ifaceOk else .error "provider not found"⟩

def opts0 : ListOptions := ⟨1, 100⟩

/-- Recognizes a namespace-page fetch event. -/
def isNsFetchEvent : Event → Bool
  | .fetchNamespaces _ => true
  | _ => false

/-- Recognizes a repository-page fetch event. -/
def isRepoFetchEvent : Event → Bool
  | .fetchRepositories _ => true
  | _ => false

/-- The configuration data of a configured provider (everything the view
copies from it). -/
def providerKey (gp : GitProvider) : String × String × String × String :=
  (gp.Id, gp.ProviderId, gp.Username, gp.Alias)

/-- The configuration data carried by a prompt view entry. -/
def viewKey (v : GitProviderView) : String × String × String × String :=
  (v.Id, v.ProviderId, v.Username, v.Alias)

/-- A fully concrete oracle bundle, overridden per test. -/
def baseOracles : WizardOracles where
  listSamples := .ok []
  urlInput := .ok repoA
  promptProvider := fun _ _ => "cfg1"
  promptSample := fun _ => none
  getGitContext := fun _ => .ok repoB
  fetchNs := fun _ => nsFetchTwo
  promptNs := nsPromptPick
  fetchRepos := fun _ _ => repoFetchTwo
  promptRepo := repoPromptPick
  setBranch := fun r => .ok { r with Branch := "main" }

def oProvCancel : WizardOracles := { baseOracles with promptProvider := fun _ _ => "" }

def oSampleCancel : WizardOracles :=
  { baseOracles with promptProvider := fun _ _ => CREATE_FROM_SAMPLE }

def oNsCancel : WizardOracles := { baseOracles with promptNs := nsPromptCancel }

def oRepoCancel : WizardOracles := { baseOracles with promptRepo := repoPromptCancel }

def cfg0 : RepositoryWizardConfig := ⟨[gpCfg], false, false⟩

/-! ## Theorems -/

/-- C1: `isGitProviderWithUnsupportedPagination` returns true for exactly the
four providers azure-devops, bitbucket, gitness and aws-codecommit; the
repository loop's effective pagination-disabled test is false for bitbucket,
while the namespace loop's test keeps bitbucket pagination-disabled. -/
theorem pagination_quirk_characterization :
    (∀ p : String,
      isGitProviderWithUnsupportedPagination p = true ↔
        (p = "azure-devops" ∨ p = "bitbucket" ∨ p = "gitness" ∨ p = "aws-codecommit"))
    ∧ repositoryPaginationDisabled "bitbucket" = false
    ∧ namespacePaginationDisabled "bitbucket" = true := by
  refine ⟨fun p => ?_, by decide, by decide⟩
  simp [isGitProviderWithUnsupportedPagination]
  tauto

/-- C10: `GetRepoBranches` fails exactly when the provider lookup or the
branch listing fails, wrapping the lookup failure with
"failed to get git provider: " and the listing failure with
"failed to get branches: "; on success it returns the provider's branch
list unchanged. -/
theorem GetRepoBranches_error_characterization
    (s : GitProviderService) (gid nid rid : String) (opts : ListOptions) :
    (∀ e, s.GetGitProvider gid = .error e →
      GetRepoBranches s gid nid rid opts = .error ("failed to get git provider: " ++ e))
    ∧ (∀ p e, s.GetGitProvider gid = .ok p →
        p.GetRepoBranches rid nid opts = .error e →
        GetRepoBranches s gid nid rid opts = .error ("failed to get branches: " ++ e))
    ∧ (∀ p bs, s.GetGitProvider gid = .ok p →
        p.GetRepoBranches rid nid opts = .ok bs →
        GetRepoBranches s gid nid rid opts = .ok bs)
    ∧ ((∃ bs, GetRepoBranches s gid nid rid opts = .ok bs) ↔
        (∃ p bs, s.GetGitProvider gid = .ok p ∧ p.GetRepoBranches rid nid opts = .ok bs)) := by
  refine ⟨fun e he => ?_, fun p e hp hb => ?_, fun p bs hp hb => ?_, ?_⟩
  · unfold GetRepoBranches; rw [he]
  · simp [GetRepoBranches, hp, hb]
  · simp [GetRepoBranches, hp, hb]
  · unfold GetRepoBranches
    cases hgp : s.GetGitProvider gid with
    | error e => simp [hgp]
    | ok p =>
      cases hb : p.GetRepoBranches rid nid opts with
      | error e => simp [hb]
      | ok bs => simp [hb]

/-- Witness for C10 at a concrete service: a successful lookup and listing
returns the branches; an unknown provider id yields the wrapped lookup
error. -/
theorem GetRepoBranches_error_characterization_witness :
    GetRepoBranches svcOk "g1" "n1" "r1" opts0 = .ok [branchMain]
    ∧ GetRepoBranches svcOk "g2" "n1" "r1" opts0 =
        .error ("failed to get git provider: " ++ "provider not found") :=
  ⟨(GetRepoBranches_error_characterization svcOk "g1" "n1" "r1" opts0).2.2.1
      ifaceOk [branchMain] rfl rfl,
    (GetRepoBranches_error_characterization svcOk "g2" "n1" "r1" opts0).1
      "provider not found" rfl⟩

/-- Each namespace-loop iteration's trace begins with a fetch of the current
page and contains exactly one fetch event. -/
theorem nsIter_trace_shape (providerId : String)
    (fetchNs : Int → Except String (List GitNamespace))
    (promptNs : List GitNamespace → Int → String × String) (s : NsState) :
    (nsIter providerId fetchNs promptNs s).2.head? = some (.fetchNamespaces s.page)
    ∧ (nsIter providerId fetchNs promptNs s).2.countP isNsFetchEvent = 1 := by
  unfold nsIter WithSpinner
  cases fetchNs s.page with
  | error e => simp [isNsFetchEvent]
  | ok l =>
    by_cases h : (s.singleAvail && l.length == 1) = true
    · simp [h, isNsFetchEvent]
    · simp [h, isNsFetchEvent]

/-- Each repository-loop iteration's trace begins with a fetch of the
current page and contains exactly one fetch event. -/
theorem repoIter_trace_shape (providerId : String)
    (fetchRepos : Int → Except String (List GitRepository))
    (promptRepo : List GitRepository → Int → Option GitRepository × String) (page : Int) :
    (repoIter providerId fetchRepos promptRepo page).2.head? = some (.fetchRepositories page)
    ∧ (repoIter providerId fetchRepos promptRepo page).2.countP isRepoFetchEvent = 1 := by
  unfold repoIter WithSpinner
  cases fetchRepos page with
  | error e => simp [isRepoFetchEvent]
  | ok l => simp [isRepoFetchEvent]

/-- Events of the first iteration stay in the trace of a running loop. -/
theorem mem_nsLoop_of_mem_nsIter (providerId : String)
    (fetchNs : Int → Except String (List GitNamespace))
    (promptNs : List GitNamespace → Int → String × String)
    (fuel : Nat) (s : NsState) (e : Event)
    (he : e ∈ (nsIter providerId fetchNs promptNs s).2) :
    e ∈ (nsLoop providerId fetchNs promptNs (fuel + 1) s).2 := by
  unfold nsLoop
  rcases hit : nsIter providerId fetchNs promptNs s with ⟨res, tr⟩
  rw [hit] at he
  cases res with
  | error err => exact he
  | ok v =>
    cases v with
    | inr r => exact he
    | inl s' => simpa using Or.inl he

/-- C2: in the namespace stage the single-result short-circuit fires exactly
on the very first fetch: a first page of exactly one namespace is
auto-selected and the loop ends with no prompt; a first page of any other
length leads to a prompt; every continuing iteration clears the
`isOnlySingleNamespaceAvailable` flag, and with the flag cleared every
successful fetch is followed by a prompt; the repository stage prompts after
every successful fetch. -/
theorem single_result_short_circuit
    (providerId : String)
    (fetchNs : Int → Except String (List GitNamespace))
    (promptNs : List GitNamespace → Int → String × String)
    (fetchRepos : Int → Except String (List GitRepository))
    (promptRepo : List GitRepository → Int → Option GitRepository × String) :
    (∀ n fuel, fetchNs 1 = .ok [n] →
      nsLoop providerId fetchNs promptNs (fuel + 1) ⟨1, true, ""⟩ =
        (some (.ok (n.Id, n.Name)), [.fetchNamespaces 1]))
    ∧ (∀ l fuel, fetchNs 1 = .ok l → l.length ≠ 1 →
        Event.promptNamespaces 1 ∈
          (nsLoop providerId fetchNs promptNs (fuel + 1) ⟨1, true, ""⟩).2)
    ∧ (∀ s s', (nsIter providerId fetchNs promptNs s).1 = .ok (.inl s') →
        s'.singleAvail = false)
    ∧ (∀ s l, s.singleAvail = false → fetchNs s.page = .ok l →
        Event.promptNamespaces s.page ∈ (nsIter providerId fetchNs promptNs s).2)
    ∧ (∀ page l, fetchRepos page = .ok l →
        Event.promptRepositories page ∈ (repoIter providerId fetchRepos promptRepo page).2) := by
  refine ⟨fun n fuel hf => ?_, fun l fuel hf hlen => ?_, fun s s' h => ?_,
    fun s l hs hf => ?_, fun page l hf => ?_⟩
  · unfold nsLoop
    have hiter : nsIter providerId fetchNs promptNs ⟨1, true, ""⟩ =
        (.ok (.inr (n.Id, n.Name)), [.fetchNamespaces 1]) := by
      unfold nsIter WithSpinner
      rw [hf]
      simp
    rw [hiter]
  · apply mem_nsLoop_of_mem_nsIter
    unfold nsIter WithSpinner
    rw [hf]
    have hcond : (((⟨1, true, ""⟩ : NsState).singleAvail && l.length == 1)) = false := by
      simp [hlen]
    simp [hcond]
  · unfold nsIter WithSpinner at h
    cases hf : fetchNs s.page with
    | error e => rw [hf] at h; simp at h
    | ok l =>
      rw [hf] at h
      dsimp only at h
      by_cases hc : (s.singleAvail && l.length == 1) = true
      · rw [dif_pos hc] at h
        simp at h
      · rw [dif_neg hc] at h
        dsimp only at h
        split at h
        · split at h
          · simp at h
            exact h ▸ rfl
          · split at h
            · simp at h
              exact h ▸ rfl
            · simp at h
              exact h ▸ rfl
        · split at h
          · simp_all
          · simp_all
  · unfold nsIter WithSpinner
    rw [hf]
    have hcond : ((s.singleAvail && l.length == 1)) = false := by simp [hs]
    simp [hcond]
  · unfold repoIter WithSpinner
    rw [hf]
    simp

/-- Witness for C2 at concrete oracles: a one-item first page is returned
with no prompt; a two-item first page prompts; a continuing iteration
clears the flag; a cleared flag prompts; the repository stage prompts. -/
theorem single_result_short_circuit_witness :
    nsLoop "github" nsFetchOne nsPromptCancel 1 ⟨1, true, ""⟩ =
      (some (.ok ("ns1", "Org One")), [.fetchNamespaces 1])
    ∧ Event.promptNamespaces 1 ∈ (nsLoop "github" nsFetchTwo nsPromptCancel 1 ⟨1, true, ""⟩).2
    ∧ (⟨1, false, ""⟩ : NsState).singleAvail = false
    ∧ Event.promptNamespaces 1 ∈ (nsIter "github" nsFetchTwo nsPromptPrev ⟨1, false, "x"⟩).2
    ∧ Event.promptRepositories 1 ∈ (repoIter "github" repoFetchTwo repoPromptCancel 1).2 :=
  ⟨(single_result_short_circuit "github" nsFetchOne nsPromptCancel
      repoFetchTwo repoPromptCancel).1 nsA 0 rfl,
    (single_result_short_circuit "github" nsFetchTwo nsPromptCancel
      repoFetchTwo repoPromptCancel).2.1 [nsA, nsB] 0 rfl (by decide),
    (single_result_short_circuit "github" nsFetchTwo nsPromptPrev
      repoFetchTwo repoPromptCancel).2.2.1 ⟨1, true, ""⟩ ⟨1, false, ""⟩ (by decide),
    (single_result_short_circuit "github" nsFetchTwo nsPromptPrev
      repoFetchTwo repoPromptCancel).2.2.2.1 ⟨1, false, "x"⟩ [nsA, nsB] rfl rfl,
    (single_result_short_circuit "github" nsFetchTwo nsPromptPrev
      repoFetchTwo repoPromptCancel).2.2.2.2 1 [repoA, repoB] rfl⟩

/-- One-step unfolding of the namespace loop. -/
theorem nsLoop_succ (providerId : String)
    (fetchNs : Int → Except String (List GitNamespace))
    (promptNs : List GitNamespace → Int → String × String)
    (fuel : Nat) (s : NsState) :
    nsLoop providerId fetchNs promptNs (fuel + 1) s =
      match nsIter providerId fetchNs promptNs s with
      | (.error e, tr) => (some (.error e), tr)
      | (.ok (.inr r), tr) => (some (.ok r), tr)
      | (.ok (.inl s'), tr) =>
        ((nsLoop providerId fetchNs promptNs fuel s').1,
          tr ++ (nsLoop providerId fetchNs promptNs fuel s').2) := rfl

/-- One-step unfolding of the repository loop. -/
theorem repoLoop_succ (providerId : String)
    (fetchRepos : Int → Except String (List GitRepository))
    (promptRepo : List GitRepository → Int → Option GitRepository × String)
    (fuel : Nat) (page : Int) :
    repoLoop providerId fetchRepos promptRepo (fuel + 1) page =
      match repoIter providerId fetchRepos promptRepo page with
      | (.error e, tr) => (some (.error e), tr)
      | (.ok (.inr r), tr) => (some (.ok r), tr)
      | (.ok (.inl page'), tr) =>
        ((repoLoop providerId fetchRepos promptRepo fuel page').1,
          tr ++ (repoLoop providerId fetchRepos promptRepo fuel page').2) := rfl

/-- A one-fuel namespace loop has the trace of its single iteration. -/
theorem nsLoop_one_countP (providerId : String)
    (fetchNs : Int → Except String (List GitNamespace))
    (promptNs : List GitNamespace → Int → String × String)
    (s : NsState) (q : Event → Bool) :
    (nsLoop providerId fetchNs promptNs 1 s).2.countP q =
      (nsIter providerId fetchNs promptNs s).2.countP q := by
  rw [show (1 : Nat) = 0 + 1 from rfl, nsLoop_succ]
  rcases nsIter providerId fetchNs promptNs s with ⟨res, tr⟩
  cases res with
  | error e => rfl
  | ok v =>
    cases v with
    | inr r => rfl
    | inl s' => simp [nsLoop]

/-- A one-fuel repository loop has the trace of its single iteration. -/
theorem repoLoop_one_countP (providerId : String)
    (fetchRepos : Int → Except String (List GitRepository))
    (promptRepo : List GitRepository → Int → Option GitRepository × String)
    (page : Int) (q : Event → Bool) :
    (repoLoop providerId fetchRepos promptRepo 1 page).2.countP q =
      (repoIter providerId fetchRepos promptRepo page).2.countP q := by
  rw [show (1 : Nat) = 0 + 1 from rfl, repoLoop_succ]
  rcases repoIter providerId fetchRepos promptRepo page with ⟨res, tr⟩
  cases res with
  | error e => rfl
  | ok v =>
    cases v with
    | inr r => rfl
    | inl page' => simp [repoLoop]

/-- `wrap32` is the identity on the int32 range. -/
theorem wrap32_eq_self (n : Int) (h1 : -(2 ^ 31) ≤ n) (h2 : n < 2 ^ 31) : wrap32 n = n := by
  unfold wrap32
  have h3 : (n + 2 ^ 31) % 2 ^ 32 = n + 2 ^ 31 := Int.emod_eq_of_lt (by omega) (by omega)
  omega

/-- C3 counterexample: with pagination enabled, a "prev" outcome on page 1
does not re-prompt the same page without fetching — the loop goes back to
its top and performs a second fetch of page 1, so a two-iteration run
contains two namespace fetches, not at most one. -/
theorem prev_on_page_one_refetches :
    (nsLoop "github" nsFetchTwo nsPromptPrev 2 ⟨1, true, ""⟩).2 =
      [.fetchNamespaces 1, .promptNamespaces 1, .fetchNamespaces 1, .promptNamespaces 1]
    ∧ ¬ ((nsLoop "github" nsFetchTwo nsPromptPrev 2 ⟨1, true, ""⟩).2.countP isNsFetchEvent ≤ 1) := by
  decide

/-- C3 amended: in every iteration past the first (flag cleared) with
pagination enabled, "next" increments the page by exactly 1 and "prev" at a
page above 1 decrements it by exactly 1, each iteration performing exactly
one fetch; "prev" at page 1 leaves the page unchanged but the loop refetches
the same page (two fetches across the two iterations) before re-prompting;
a continuing iteration never drops the page below 1 and raises it by at most
1 (pages within the int32 range).  The same holds for the repository loop. -/
theorem pagination_navigation_steps
    (providerId : String)
    (fetchNs : Int → Except String (List GitNamespace))
    (promptNs : List GitNamespace → Int → String × String)
    (fetchRepos : Int → Except String (List GitRepository))
    (promptRepo : List GitRepository → Int → Option GitRepository × String) :
    (∀ s, (nsIter providerId fetchNs promptNs s).2.countP isNsFetchEvent = 1)
    ∧ (∀ s l, s.singleAvail = false → fetchNs s.page = .ok l →
        namespacePaginationDisabled providerId = false →
        (promptNs l s.page).2 = "next" →
        1 ≤ s.page → s.page ≤ 2 ^ 31 - 2 →
        nsIter providerId fetchNs promptNs s =
          (.ok (.inl { s with page := s.page + 1, singleAvail := false }),
            [.fetchNamespaces s.page, .promptNamespaces s.page]))
    ∧ (∀ s l, s.singleAvail = false → fetchNs s.page = .ok l →
        namespacePaginationDisabled providerId = false →
        (promptNs l s.page).2 = "prev" →
        1 < s.page → s.page ≤ 2 ^ 31 - 1 →
        nsIter providerId fetchNs promptNs s =
          (.ok (.inl { s with page := s.page - 1, singleAvail := false }),
            [.fetchNamespaces s.page, .promptNamespaces s.page]))
    ∧ (∀ s l, s.singleAvail = false → fetchNs s.page = .ok l →
        namespacePaginationDisabled providerId = false →
        (promptNs l s.page).2 = "prev" → s.page = 1 →
        (nsIter providerId fetchNs promptNs s).1 =
          .ok (.inl { s with
            singleAvail := false
            namespaceName := findName l (promptNs l s.page).1 s.namespaceName })
        ∧ (nsLoop providerId fetchNs promptNs 2 s).2.countP isNsFetchEvent = 2)
    ∧ (∀ s s', 1 ≤ s.page → s.page ≤ 2 ^ 31 - 2 →
        (nsIter providerId fetchNs promptNs s).1 = .ok (.inl s') →
        1 ≤ s'.page ∧ s'.page ≤ s.page + 1)
    ∧ (∀ page, (repoIter providerId fetchRepos promptRepo page).2.countP isRepoFetchEvent = 1)
    ∧ (∀ page l, fetchRepos page = .ok l →
        repositoryPaginationDisabled providerId = false →
        (promptRepo l page).2 = "next" →
        1 ≤ page → page ≤ 2 ^ 31 - 2 →
        repoIter providerId fetchRepos promptRepo page =
          (.ok (.inl (page + 1)), [.fetchRepositories page, .promptRepositories page]))
    ∧ (∀ page l, fetchRepos page = .ok l →
        repositoryPaginationDisabled providerId = false →
        (promptRepo l page).2 = "prev" →
        1 < page → page ≤ 2 ^ 31 - 1 →
        repoIter providerId fetchRepos promptRepo page =
          (.ok (.inl (page - 1)), [.fetchRepositories page, .promptRepositories page]))
    ∧ (∀ page l, fetchRepos page = .ok l →
        repositoryPaginationDisabled providerId = false →
        (promptRepo l page).2 = "prev" → page = 1 →
        (repoIter providerId fetchRepos promptRepo page).1 = .ok (.inl page)
        ∧ (repoLoop providerId fetchRepos promptRepo 2 page).2.countP isRepoFetchEvent = 2)
    ∧ (∀ page page', 1 ≤ page → page ≤ 2 ^ 31 - 2 →
        (repoIter providerId fetchRepos promptRepo page).1 = .ok (.inl page') →
        1 ≤ page' ∧ page' ≤ page + 1) := by
  refine ⟨fun s => (nsIter_trace_shape providerId fetchNs promptNs s).2,
    fun s l hs hf hd hnav hlo hhi => ?_,
    fun s l hs hf hd hnav hlo hhi => ?_,
    fun s l hs hf hd hnav hpage => ?_,
    fun s s' hlo hhi h => ?_,
    fun page => (repoIter_trace_shape providerId fetchRepos promptRepo page).2,
    fun page l hf hd hnav hlo hhi => ?_,
    fun page l hf hd hnav hlo hhi => ?_,
    fun page l hf hd hnav hpage => ?_,
    fun page page' hlo hhi h => ?_⟩
  · unfold nsIter WithSpinner
    rw [hf]
    dsimp only
    rw [dif_neg (by simp [hs])]
    rw [hd, hnav, if_pos (by decide), if_pos (by decide),
      wrap32_eq_self _ (by omega) (by omega)]
  · unfold nsIter WithSpinner
    rw [hf]
    dsimp only
    rw [dif_neg (by simp [hs])]
    rw [hd, hnav, if_pos (by decide), if_neg (by decide),
      if_pos (by simp [hlo]), wrap32_eq_self _ (by omega) (by omega)]
  · have hiter : nsIter providerId fetchNs promptNs s =
        (.ok (.inl { s with
          singleAvail := false
          namespaceName := findName l (promptNs l s.page).1 s.namespaceName }),
          [.fetchNamespaces s.page, .promptNamespaces s.page]) := by
      unfold nsIter WithSpinner
      rw [hf]
      dsimp only
      rw [dif_neg (by simp [hs])]
      rw [hd, hnav, if_pos (by decide), if_neg (by decide),
        if_neg (by rw [hpage]; decide)]
    refine ⟨by rw [hiter], ?_⟩
    rw [show (2 : Nat) = 1 + 1 from rfl, nsLoop_succ, hiter]
    simp only [List.countP_append, nsLoop_one_countP,
      (nsIter_trace_shape providerId fetchNs promptNs _).2]
    simp [isNsFetchEvent, List.countP_cons]
  · unfold nsIter WithSpinner at h
    cases hf : fetchNs s.page with
    | error e => rw [hf] at h; simp at h
    | ok l =>
      rw [hf] at h
      dsimp only at h
      by_cases hc : (s.singleAvail && l.length == 1) = true
      · rw [dif_pos hc] at h; simp at h
      · rw [dif_neg hc] at h
        dsimp only at h
        split at h
        · split at h
          · simp at h
            have hp : s'.page = wrap32 (s.page + 1) := by rw [← h]
            rw [wrap32_eq_self (s.page + 1) (by omega) (by omega)] at hp
            omega
          · split at h
            · rename_i hcond
              simp only [Bool.and_eq_true, beq_iff_eq, decide_eq_true_eq] at hcond
              simp at h
              have hp : s'.page = wrap32 (s.page - 1) := by rw [← h]
              rw [wrap32_eq_self (s.page - 1) (by omega) (by omega)] at hp
              have hgt := hcond.2
              omega
            · simp at h
              have hp : s'.page = s.page := by rw [← h]
              omega
        · split at h
          · simp at h
          · simp at h
  · unfold repoIter WithSpinner
    rw [hf]
    dsimp only
    rw [hd, hnav, if_pos (by decide), if_pos (by decide),
      wrap32_eq_self _ (by omega) (by omega)]
  · unfold repoIter WithSpinner
    rw [hf]
    dsimp only
    rw [hd, hnav, if_pos (by decide), if_neg (by decide),
      if_pos (by simp [hlo]), wrap32_eq_self _ (by omega) (by omega)]
  · have hiter : repoIter providerId fetchRepos promptRepo page =
        (.ok (.inl page), [.fetchRepositories page, .promptRepositories page]) := by
      unfold repoIter WithSpinner
      rw [hf]
      dsimp only
      rw [hd, hnav, if_pos (by decide), if_neg (by decide),
        if_neg (by rw [hpage]; decide)]
    refine ⟨by rw [hiter], ?_⟩
    rw [show (2 : Nat) = 1 + 1 from rfl, repoLoop_succ, hiter]
    simp only [List.countP_append, repoLoop_one_countP,
      (repoIter_trace_shape providerId fetchRepos promptRepo _).2]
    simp [isRepoFetchEvent, List.countP_cons]
  · unfold repoIter WithSpinner at h
    cases hf : fetchRepos page with
    | error e => rw [hf] at h; simp at h
    | ok l =>
      rw [hf] at h
      dsimp only at h
      split at h
      · split at h
        · simp at h
          rw [← h, wrap32_eq_self (page + 1) (by omega) (by omega)]
          omega
        · split at h
          · rename_i hcond
            simp only [Bool.and_eq_true, beq_iff_eq, decide_eq_true_eq] at hcond
            simp at h
            rw [← h, wrap32_eq_self (page - 1) (by omega) (by omega)]
            have hgt := hcond.2
            omega
          · simp at h
            rw [← h]
            omega
      · split at h <;> simp at h

/-- Witness for C3 amended at concrete oracles: "next" on page 1 moves to
page 2, "prev" on page 2 moves back to page 1, "prev" on page 1 keeps the
page and a two-iteration run fetches twice; iterations perform exactly one
fetch; continuing steps respect the page bounds. -/
theorem pagination_navigation_steps_witness :
    (nsIter "github" nsFetchTwo nsPromptNext ⟨5, false, ""⟩).2.countP isNsFetchEvent = 1
    ∧ nsIter "github" nsFetchTwo nsPromptNext ⟨1, false, ""⟩ =
        (.ok (.inl ⟨2, false, ""⟩), [.fetchNamespaces 1, .promptNamespaces 1])
    ∧ nsIter "github" nsFetchTwo nsPromptPrev ⟨2, false, ""⟩ =
        (.ok (.inl ⟨1, false, ""⟩), [.fetchNamespaces 2, .promptNamespaces 2])
    ∧ ((nsIter "github" nsFetchTwo nsPromptPrev ⟨1, false, ""⟩).1 = .ok (.inl ⟨1, false, ""⟩)
        ∧ (nsLoop "github" nsFetchTwo nsPromptPrev 2 ⟨1, false, ""⟩).2.countP isNsFetchEvent = 2)
    ∧ ((1 : Int) ≤ 2 ∧ (2 : Int) ≤ 1 + 1)
    ∧ (repoIter "github" repoFetchTwo repoPromptNext 3).2.countP isRepoFetchEvent = 1
    ∧ repoIter "github" repoFetchTwo repoPromptNext 1 =
        (.ok (.inl 2), [.fetchRepositories 1, .promptRepositories 1])
    ∧ repoIter "github" repoFetchTwo repoPromptPrev 2 =
        (.ok (.inl 1), [.fetchRepositories 2, .promptRepositories 2])
    ∧ ((repoIter "github" repoFetchTwo repoPromptPrev 1).1 = .ok (.inl 1)
        ∧ (repoLoop "github" repoFetchTwo repoPromptPrev 2 1).2.countP isRepoFetchEvent = 2)
    ∧ ((1 : Int) ≤ 3 ∧ (3 : Int) ≤ 2 + 1) :=
  ⟨(pagination_navigation_steps "github" nsFetchTwo nsPromptNext
      repoFetchTwo repoPromptNext).1 ⟨5, false, ""⟩,
    (pagination_navigation_steps "github" nsFetchTwo nsPromptNext
      repoFetchTwo repoPromptNext).2.1 ⟨1, false, ""⟩ [nsA, nsB]
      rfl rfl rfl rfl (by decide) (by decide),
    (pagination_navigation_steps "github" nsFetchTwo nsPromptPrev
      repoFetchTwo repoPromptPrev).2.2.1 ⟨2, false, ""⟩ [nsA, nsB]
      rfl rfl rfl rfl (by decide) (by decide),
    (pagination_navigation_steps "github" nsFetchTwo nsPromptPrev
      repoFetchTwo repoPromptPrev).2.2.2.1 ⟨1, false, ""⟩ [nsA, nsB]
      rfl rfl rfl rfl rfl,
    (pagination_navigation_steps "github" nsFetchTwo nsPromptNext
      repoFetchTwo repoPromptNext).2.2.2.2.1 ⟨1, false, ""⟩ ⟨2, false, ""⟩
      (by decide) (by decide) (by decide),
    (pagination_navigation_steps "github" nsFetchTwo nsPromptNext
      repoFetchTwo repoPromptNext).2.2.2.2.2.1 3,
    (pagination_navigation_steps "github" nsFetchTwo nsPromptNext
      repoFetchTwo repoPromptNext).2.2.2.2.2.2.1 1 [repoA, repoB]
      rfl rfl rfl (by decide) (by decide),
    (pagination_navigation_steps "github" nsFetchTwo nsPromptPrev
      repoFetchTwo repoPromptPrev).2.2.2.2.2.2.2.1 2 [repoA, repoB]
      rfl rfl rfl (by decide) (by decide),
    (pagination_navigation_steps "github" nsFetchTwo nsPromptPrev
      repoFetchTwo repoPromptPrev).2.2.2.2.2.2.2.2.1 1 [repoA, repoB]
      rfl rfl rfl rfl,
    (pagination_navigation_steps "github" nsFetchTwo nsPromptNext
      repoFetchTwo repoPromptNext).2.2.2.2.2.2.2.2.2 2 3
      (by decide) (by decide) (by decide)⟩

/-- C4: a cancel answer at any prompt (provider choice, sample choice,
namespace or repository selection) makes the wizard return the unwrapped
`ErrCtrlCAbort` sentinel, and a cancellation at the namespace stage happens
before any repository fetch or branch-wizard call is issued. -/
theorem cancellation_returns_sentinel
    (sp : List SupportedProvider) (o : WizardOracles) (cfg : RepositoryWizardConfig)
    (nsFuel repoFuel : Nat)
    (hmanual : cfg.Manual = false) (hprov : cfg.UserGitProviders.length ≠ 0) :
    ((∀ l b, o.promptProvider l b = "") →
      getRepositoryFromWizard sp o cfg nsFuel repoFuel =
        (some (.error .ctrlCAbort), [.fetchSamples, .promptProvider]))
    ∧ ((∀ l b, o.promptProvider l b = CREATE_FROM_SAMPLE) →
      (∀ l, o.promptSample l = none) →
      getRepositoryFromWizard sp o cfg nsFuel repoFuel =
        (some (.error .ctrlCAbort), [.fetchSamples, .promptProvider, .promptSample]))
    ∧ ((∀ l b, o.promptProvider l b = "cfg1") →
      (∀ l p, o.promptNs l p = ("", "")) →
      (∀ pid p, ∃ l, o.fetchNs pid p = .ok l ∧ l.length ≠ 1) →
      getRepositoryFromWizard sp o cfg (nsFuel + 1) repoFuel =
        (some (.error .ctrlCAbort),
          [.fetchSamples, .promptProvider, .fetchNamespaces 1, .promptNamespaces 1])
      ∧ (getRepositoryFromWizard sp o cfg (nsFuel + 1) repoFuel).2.countP isRepoFetchEvent = 0
      ∧ Event.branchWizard ∉ (getRepositoryFromWizard sp o cfg (nsFuel + 1) repoFuel).2)
    ∧ ((∀ l b, o.promptProvider l b = "cfg1") →
      (∀ l p, o.promptNs l p = ("ns2", "")) →
      (∀ pid p, ∃ l, o.fetchNs pid p = .ok l ∧ l.length ≠ 1) →
      (∀ l p, o.promptRepo l p = (none, "")) →
      (∀ pid nid p, ∃ l, o.fetchRepos pid nid p = .ok l) →
      getRepositoryFromWizard sp o cfg (nsFuel + 1) (repoFuel + 1) =
        (some (.error .ctrlCAbort),
          [.fetchSamples, .promptProvider, .fetchNamespaces 1, .promptNamespaces 1,
            .fetchRepositories 1, .promptRepositories 1])
      ∧ Event.branchWizard ∉
          (getRepositoryFromWizard sp o cfg (nsFuel + 1) (repoFuel + 1)).2) := by
  have h0 : (cfg.UserGitProviders.length == 0) = false := by
    simpa using hprov
  have hcond : ((cfg.UserGitProviders.length == 0 && (samplesAfterFetch o).length == 0)
      || cfg.Manual) = false := by
    simp [h0, hmanual]
  refine ⟨fun hpp => ?_, fun hpp hps => ?_, fun hpp hpn hfn => ?_,
    fun hpp hpn hfn hpr hfr => ?_⟩
  · simp [getRepositoryFromWizard, hcond, hpp]
  · simp [getRepositoryFromWizard, hcond, hpp, hps, CREATE_FROM_SAMPLE, CustomRepoIdentifier]
  · obtain ⟨l, hfl, hlen⟩ :=
      hfn (resolveProviderId (buildGitProviderViewList cfg.UserGitProviders sp) "cfg1") 1
    have hiter : nsIter
        (resolveProviderId (buildGitProviderViewList cfg.UserGitProviders sp) "cfg1")
        (o.fetchNs (resolveProviderId (buildGitProviderViewList cfg.UserGitProviders sp) "cfg1"))
        o.promptNs ⟨1, true, ""⟩ =
        (.error .ctrlCAbort, [.fetchNamespaces 1, .promptNamespaces 1]) := by
      unfold nsIter WithSpinner
      rw [hfl]
      dsimp only
      rw [dif_neg (by simp [hlen])]
      rw [hpn]
      simp
    have hns : nsLoop
        (resolveProviderId (buildGitProviderViewList cfg.UserGitProviders sp) "cfg1")
        (o.fetchNs (resolveProviderId (buildGitProviderViewList cfg.UserGitProviders sp) "cfg1"))
        o.promptNs (nsFuel + 1) ⟨1, true, ""⟩ =
        (some (.error .ctrlCAbort), [.fetchNamespaces 1, .promptNamespaces 1]) := by
      rw [nsLoop_succ, hiter]
    have heq : getRepositoryFromWizard sp o cfg (nsFuel + 1) repoFuel =
        (some (.error .ctrlCAbort),
          [.fetchSamples, .promptProvider, .fetchNamespaces 1, .promptNamespaces 1]) := by
      simp [getRepositoryFromWizard, hcond, hpp, CREATE_FROM_SAMPLE, CustomRepoIdentifier, hns]
    exact ⟨heq, by rw [heq]; decide, by rw [heq]; decide⟩
  · obtain ⟨l, hfl, hlen⟩ :=
      hfn (resolveProviderId (buildGitProviderViewList cfg.UserGitProviders sp) "cfg1") 1
    obtain ⟨lr, hflr⟩ :=
      hfr (resolveProviderId (buildGitProviderViewList cfg.UserGitProviders sp) "cfg1") "ns2" 1
    have hiter : nsIter
        (resolveProviderId (buildGitProviderViewList cfg.UserGitProviders sp) "cfg1")
        (o.fetchNs (resolveProviderId (buildGitProviderViewList cfg.UserGitProviders sp) "cfg1"))
        o.promptNs ⟨1, true, ""⟩ =
        (.ok (.inr ("ns2", findName l "ns2" "")),
          [.fetchNamespaces 1, .promptNamespaces 1]) := by
      unfold nsIter WithSpinner
      rw [hfl]
      dsimp only
      rw [dif_neg (by simp [hlen])]
      rw [hpn]
      simp
    have hns : nsLoop
        (resolveProviderId (buildGitProviderViewList cfg.UserGitProviders sp) "cfg1")
        (o.fetchNs (resolveProviderId (buildGitProviderViewList cfg.UserGitProviders sp) "cfg1"))
        o.promptNs (nsFuel + 1) ⟨1, true, ""⟩ =
        (some (.ok ("ns2", findName l "ns2" "")),
          [.fetchNamespaces 1, .promptNamespaces 1]) := by
      rw [nsLoop_succ, hiter]
    have hiter2 : repoIter
        (resolveProviderId (buildGitProviderViewList cfg.UserGitProviders sp) "cfg1")
        (o.fetchRepos (resolveProviderId (buildGitProviderViewList cfg.UserGitProviders sp) "cfg1") "ns2")
        o.promptRepo 1 =
        (.error .ctrlCAbort, [.fetchRepositories 1, .promptRepositories 1]) := by
      unfold repoIter WithSpinner
      rw [hflr]
      dsimp only
      rw [hpr]
      simp
    have hrl : repoLoop
        (resolveProviderId (buildGitProviderViewList cfg.UserGitProviders sp) "cfg1")
        (o.fetchRepos (resolveProviderId (buildGitProviderViewList cfg.UserGitProviders sp) "cfg1") "ns2")
        o.promptRepo (repoFuel + 1) 1 =
        (some (.error .ctrlCAbort), [.fetchRepositories 1, .promptRepositories 1]) := by
      rw [repoLoop_succ, hiter2]
    have heq : getRepositoryFromWizard sp o cfg (nsFuel + 1) (repoFuel + 1) =
        (some (.error .ctrlCAbort),
          [.fetchSamples, .promptProvider, .fetchNamespaces 1, .promptNamespaces 1,
            .fetchRepositories 1, .promptRepositories 1]) := by
      simp [getRepositoryFromWizard, hcond, hpp, CREATE_FROM_SAMPLE, CustomRepoIdentifier,
        hns, hrl]
    exact ⟨heq, by rw [heq]; decide⟩

/-- Witness for C4 at concrete oracle bundles, one per cancelled prompt. -/
theorem cancellation_returns_sentinel_witness :
    getRepositoryFromWizard [spGithub, spGitlab] oProvCancel cfg0 1 1 =
      (some (.error .ctrlCAbort), [.fetchSamples, .promptProvider])
    ∧ getRepositoryFromWizard [spGithub, spGitlab] oSampleCancel cfg0 1 1 =
      (some (.error .ctrlCAbort), [.fetchSamples, .promptProvider, .promptSample])
    ∧ getRepositoryFromWizard [spGithub, spGitlab] oNsCancel cfg0 1 1 =
      (some (.error .ctrlCAbort),
        [.fetchSamples, .promptProvider, .fetchNamespaces 1, .promptNamespaces 1])
    ∧ getRepositoryFromWizard [spGithub, spGitlab] oRepoCancel cfg0 1 1 =
      (some (.error .ctrlCAbort),
        [.fetchSamples, .promptProvider, .fetchNamespaces 1, .promptNamespaces 1,
          .fetchRepositories 1, .promptRepositories 1]) :=
  ⟨(cancellation_returns_sentinel [spGithub, spGitlab] oProvCancel cfg0 1 1
      rfl (by decide)).1 (fun _ _ => rfl),
    (cancellation_returns_sentinel [spGithub, spGitlab] oSampleCancel cfg0 1 1
      rfl (by decide)).2.1 (fun _ _ => rfl) (fun _ => rfl),
    ((cancellation_returns_sentinel [spGithub, spGitlab] oNsCancel cfg0 0 1
      rfl (by decide)).2.2.1 (fun _ _ => rfl) (fun _ _ => rfl)
      (fun _ _ => ⟨[nsA, nsB], rfl, by decide⟩)).1,
    ((cancellation_returns_sentinel [spGithub, spGitlab] oRepoCancel cfg0 0 0
      rfl (by decide)).2.2.2 (fun _ _ => rfl) (fun _ _ => rfl)
      (fun _ _ => ⟨[nsA, nsB], rfl, by decide⟩) (fun _ _ => rfl)
      (fun _ _ _ => ⟨[repoA, repoB], rfl⟩)).1⟩

/-- C5 counterexample: with zero providers and zero samples the wizard does
go to manual URL entry, but only after issuing the sample-list query — the
run's trace contains a sample-related fetch, so "no sample-related network
query is issued before reaching manual entry" is false. -/
theorem manual_entry_preceded_by_sample_fetch :
    getRepositoryFromWizard [spGithub] baseOracles ⟨[], false, false⟩ 1 1 =
      (some (.ok repoA), [Event.fetchSamples, Event.manualEntry])
    ∧ ¬ (Event.fetchSamples ∉
        (getRepositoryFromWizard [spGithub] baseOracles ⟨[], false, false⟩ 1 1).2) := by
  decide

/-- C5 amended: with zero configured providers and zero fetched samples, or
in explicit manual mode, the wizard goes straight to manual URL entry; apart
from the unconditional initial sample-list call it issues no fetch at all —
no provider, namespace, repository or git-context query appears in the
trace. -/
theorem manual_entry_no_other_fetches
    (sp : List SupportedProvider) (o : WizardOracles) (cfg : RepositoryWizardConfig)
    (nsFuel repoFuel : Nat)
    (h : (cfg.UserGitProviders = [] ∧ samplesAfterFetch o = []) ∨ cfg.Manual = true) :
    getRepositoryFromWizard sp o cfg nsFuel repoFuel =
      (some o.urlInput, [Event.fetchSamples, Event.manualEntry]) := by
  rcases h with ⟨h1, h2⟩ | h1
  · simp [getRepositoryFromWizard, h1, h2]
  · simp [getRepositoryFromWizard, h1]

/-- Witness for C5 amended: a zero-provider zero-sample run and a
manual-mode run, both ending at manual entry with only the sample fetch. -/
theorem manual_entry_no_other_fetches_witness :
    getRepositoryFromWizard [] baseOracles ⟨[], false, false⟩ 1 1 =
      (some (.ok repoA), [Event.fetchSamples, Event.manualEntry])
    ∧ getRepositoryFromWizard [] baseOracles ⟨[gpCfg], true, false⟩ 1 1 =
      (some (.ok repoA), [Event.fetchSamples, Event.manualEntry]) :=
  ⟨manual_entry_no_other_fetches [] baseOracles ⟨[], false, false⟩ 1 1 (Or.inl ⟨rfl, rfl⟩),
    manual_entry_no_other_fetches [] baseOracles ⟨[gpCfg], true, false⟩ 1 1 (Or.inr rfl)⟩

/-- C6 counterexample: a failing namespace (repository) page fetch makes the
loop return the fetch's error untouched — not an error wrapped with
"failed to load namespaces" ("failed to load repositories"). -/
theorem fetch_failure_error_is_raw :
    (nsLoop "github" nsFetchFail nsPromptCancel 1 ⟨1, true, ""⟩).1 =
      some (.error (.apiError "boom"))
    ∧ (nsLoop "github" nsFetchFail nsPromptCancel 1 ⟨1, true, ""⟩).1 ≠
      some (.error (.apiError ("failed to load namespaces: " ++ "boom")))
    ∧ (repoLoop "github" repoFetchFail repoPromptCancel 1 1).1 =
      some (.error (.apiError "crash"))
    ∧ (repoLoop "github" repoFetchFail repoPromptCancel 1 1).1 ≠
      some (.error (.apiError ("failed to load repositories: " ++ "crash"))) := by
  decide

/-- C6 amended: a failing page fetch aborts the loop immediately — the
iteration performs no prompt, the loop does not retry — and the loop's
error carries the fetch's own message unchanged, with no resource-kind
context added. -/
theorem fetch_failure_aborts_immediately
    (providerId : String)
    (fetchNs : Int → Except String (List GitNamespace))
    (promptNs : List GitNamespace → Int → String × String)
    (fetchRepos : Int → Except String (List GitRepository))
    (promptRepo : List GitRepository → Int → Option GitRepository × String)
    (s : NsState) (page : Int) (fuel : Nat) :
    (∀ e, fetchNs s.page = .error e →
      nsIter providerId fetchNs promptNs s =
        (.error (.apiError e), [.fetchNamespaces s.page])
      ∧ nsLoop providerId fetchNs promptNs (fuel + 1) s =
          (some (.error (.apiError e)), [.fetchNamespaces s.page]))
    ∧ (∀ e, fetchRepos page = .error e →
      repoIter providerId fetchRepos promptRepo page =
        (.error (.apiError e), [.fetchRepositories page])
      ∧ repoLoop providerId fetchRepos promptRepo (fuel + 1) page =
          (some (.error (.apiError e)), [.fetchRepositories page])) := by
  refine ⟨fun e he => ?_, fun e he => ?_⟩
  · have hiter : nsIter providerId fetchNs promptNs s =
        (.error (.apiError e), [.fetchNamespaces s.page]) := by
      unfold nsIter WithSpinner
      rw [he]
    exact ⟨hiter, by rw [nsLoop_succ, hiter]⟩
  · have hiter : repoIter providerId fetchRepos promptRepo page =
        (.error (.apiError e), [.fetchRepositories page]) := by
      unfold repoIter WithSpinner
      rw [he]
    exact ⟨hiter, by rw [repoLoop_succ, hiter]⟩

/-- Witness for C6 amended at concrete failing fetches. -/
theorem fetch_failure_aborts_immediately_witness :
    (nsIter "github" nsFetchFail nsPromptCancel ⟨1, true, ""⟩ =
        (.error (.apiError "boom"), [.fetchNamespaces 1])
      ∧ nsLoop "github" nsFetchFail nsPromptCancel 1 ⟨1, true, ""⟩ =
        (some (.error (.apiError "boom")), [.fetchNamespaces 1]))
    ∧ (repoIter "github" repoFetchFail repoPromptCancel 1 =
        (.error (.apiError "crash"), [.fetchRepositories 1])
      ∧ repoLoop "github" repoFetchFail repoPromptCancel 1 1 =
        (some (.error (.apiError "crash")), [.fetchRepositories 1])) :=
  ⟨(fetch_failure_aborts_immediately "github" nsFetchFail nsPromptCancel
      repoFetchFail repoPromptCancel ⟨1, true, ""⟩ 1 0).1 "boom" rfl,
    (fetch_failure_aborts_immediately "github" nsFetchFail nsPromptCancel
      repoFetchFail repoPromptCancel ⟨1, true, ""⟩ 1 0).2 "crash" rfl⟩

/-- Namespace-loop iterations only emit namespace fetch/prompt events. -/
theorem branchWizard_not_mem_nsIter (providerId : String)
    (fetchNs : Int → Except String (List GitNamespace))
    (promptNs : List GitNamespace → Int → String × String) (s : NsState) :
    Event.branchWizard ∉ (nsIter providerId fetchNs promptNs s).2 := by
  unfold nsIter WithSpinner
  cases fetchNs s.page with
  | error e => simp
  | ok l =>
    by_cases h : (s.singleAvail && l.length == 1) = true
    · simp [h]
    · simp [h]

/-- Repository-loop iterations only emit repository fetch/prompt events. -/
theorem branchWizard_not_mem_repoIter (providerId : String)
    (fetchRepos : Int → Except String (List GitRepository))
    (promptRepo : List GitRepository → Int → Option GitRepository × String) (page : Int) :
    Event.branchWizard ∉ (repoIter providerId fetchRepos promptRepo page).2 := by
  unfold repoIter WithSpinner
  cases fetchRepos page with
  | error e => simp
  | ok l => simp

/-- The namespace loop never invokes the branch wizard. -/
theorem branchWizard_not_mem_nsLoop (providerId : String)
    (fetchNs : Int → Except String (List GitNamespace))
    (promptNs : List GitNamespace → Int → String × String) :
    ∀ fuel s, Event.branchWizard ∉ (nsLoop providerId fetchNs promptNs fuel s).2 := by
  intro fuel
  induction fuel with
  | zero => intro s; simp [nsLoop]
  | succ n ih =>
    intro s
    rw [nsLoop_succ]
    have htr := branchWizard_not_mem_nsIter providerId fetchNs promptNs s
    rcases hit : nsIter providerId fetchNs promptNs s with ⟨res, tr⟩
    rw [hit] at htr
    cases res with
    | error e => simpa using htr
    | ok v =>
      cases v with
      | inr r => simpa using htr
      | inl s' =>
        simp only [List.mem_append, not_or]
        exact ⟨htr, ih s'⟩

/-- The repository loop never invokes the branch wizard. -/
theorem branchWizard_not_mem_repoLoop (providerId : String)
    (fetchRepos : Int → Except String (List GitRepository))
    (promptRepo : List GitRepository → Int → Option GitRepository × String) :
    ∀ fuel page, Event.branchWizard ∉ (repoLoop providerId fetchRepos promptRepo fuel page).2 := by
  intro fuel
  induction fuel with
  | zero => intro page; simp [repoLoop]
  | succ n ih =>
    intro page
    rw [repoLoop_succ]
    have htr := branchWizard_not_mem_repoIter providerId fetchRepos promptRepo page
    rcases hit : repoIter providerId fetchRepos promptRepo page with ⟨res, tr⟩
    rw [hit] at htr
    cases res with
    | error e => simpa using htr
    | ok v =>
      cases v with
      | inr r => simpa using htr
      | inl page' =>
        simp only [List.mem_append, not_or]
        exact ⟨htr, ih page'⟩

/-- C7: with `SkipBranchSelection` set, once the repository stage selects a
repository the wizard returns that exact repository value — no branch-wizard
call appears in the trace and no field of the value is modified. -/
theorem skip_branch_selection
    (sp : List SupportedProvider) (o : WizardOracles) (cfg : RepositoryWizardConfig)
    (nsFuel repoFuel : Nat) (nsSel : String × String) (r : GitRepository)
    (hskip : cfg.SkipBranchSelection = true)
    (hmanual : cfg.Manual = false) (hprov : cfg.UserGitProviders.length ≠ 0)
    (hpp : ∀ l b, o.promptProvider l b = "cfg1")
    (hns : (nsLoop (resolveProviderId (buildGitProviderViewList cfg.UserGitProviders sp) "cfg1")
      (o.fetchNs (resolveProviderId (buildGitProviderViewList cfg.UserGitProviders sp) "cfg1"))
      o.promptNs nsFuel ⟨1, true, ""⟩).1 = some (.ok nsSel))
    (hrl : (repoLoop (resolveProviderId (buildGitProviderViewList cfg.UserGitProviders sp) "cfg1")
      (o.fetchRepos (resolveProviderId (buildGitProviderViewList cfg.UserGitProviders sp) "cfg1")
        nsSel.1)
      o.promptRepo repoFuel 1).1 = some (.ok r)) :
    (getRepositoryFromWizard sp o cfg nsFuel repoFuel).1 = some (.ok r)
    ∧ Event.branchWizard ∉ (getRepositoryFromWizard sp o cfg nsFuel repoFuel).2 := by
  have h0 : (cfg.UserGitProviders.length == 0) = false := by simpa using hprov
  have hcond : ((cfg.UserGitProviders.length == 0 && (samplesAfterFetch o).length == 0)
      || cfg.Manual) = false := by
    simp [h0, hmanual]
  constructor
  · simp [getRepositoryFromWizard, hcond, hpp, CREATE_FROM_SAMPLE, CustomRepoIdentifier,
      hns, hrl, hskip]
  · simp only [getRepositoryFromWizard, hcond, hpp, CREATE_FROM_SAMPLE, CustomRepoIdentifier,
      hns, hrl, hskip]
    simp [branchWizard_not_mem_nsLoop, branchWizard_not_mem_repoLoop]

/-- Witness for C7 at concrete oracles: the chosen repository `repoA` is
returned untouched with no branch-wizard event. -/
theorem skip_branch_selection_witness :
    (getRepositoryFromWizard [spGithub, spGitlab] baseOracles ⟨[gpCfg], false, true⟩ 1 1).1 =
      some (.ok repoA)
    ∧ Event.branchWizard ∉
        (getRepositoryFromWizard [spGithub, spGitlab] baseOracles ⟨[gpCfg], false, true⟩ 1 1).2 :=
  skip_branch_selection [spGithub, spGitlab] baseOracles ⟨[gpCfg], false, true⟩ 1 1
    ("ns2", "Org Two") repoA rfl rfl (by decide) (fun _ _ => rfl) (by decide) (by decide)

/-- C8: a failing sample-list fetch does not abort the wizard: the run is
identical to one whose sample fetch returned an empty list; with at least
one configured provider (and no manual flag) the provider prompt is still
offered, and with zero providers the run falls through to manual entry. -/
theorem sample_fetch_failure_nonfatal
    (sp : List SupportedProvider) (o : WizardOracles) (cfg : RepositoryWizardConfig)
    (nsFuel repoFuel : Nat) (e : String) :
    getRepositoryFromWizard sp { o with listSamples := .error e } cfg nsFuel repoFuel =
      getRepositoryFromWizard sp { o with listSamples := .ok [] } cfg nsFuel repoFuel
    ∧ (cfg.UserGitProviders.length ≠ 0 → cfg.Manual = false →
        Event.promptProvider ∈
          (getRepositoryFromWizard sp { o with listSamples := .error e } cfg nsFuel repoFuel).2)
    ∧ (cfg.UserGitProviders = [] →
        getRepositoryFromWizard sp { o with listSamples := .error e } cfg nsFuel repoFuel =
          (some o.urlInput, [Event.fetchSamples, Event.manualEntry])) := by
  refine ⟨rfl, fun hprov hmanual => ?_, fun h1 => ?_⟩
  · have h0 : (cfg.UserGitProviders.length == 0) = false := by simpa using hprov
    unfold getRepositoryFromWizard
    rw [if_neg (by simp [h0, hmanual])]
    dsimp only
    split
    · simp
    · split
      · simp
      · split
        · split
          · simp
          · split
            · simp
            · simp
        · split
          · simp
          · simp
          · split
            · simp
            · simp
            · split
              · simp
              · simp
  · simp [getRepositoryFromWizard, samplesAfterFetch, h1]

/-- Witness for C8: a failed sample fetch with one provider still reaches
the provider prompt, equals the empty-sample run, and with zero providers
goes to manual entry. -/
theorem sample_fetch_failure_nonfatal_witness :
    getRepositoryFromWizard [spGithub] { baseOracles with listSamples := .error "net down" }
        cfg0 1 1 =
      getRepositoryFromWizard [spGithub] { baseOracles with listSamples := .ok [] } cfg0 1 1
    ∧ Event.promptProvider ∈
        (getRepositoryFromWizard [spGithub] { baseOracles with listSamples := .error "net down" }
          cfg0 1 1).2
    ∧ getRepositoryFromWizard [spGithub] { baseOracles with listSamples := .error "net down" }
        ⟨[], false, false⟩ 1 1 =
      (some (.ok repoA), [Event.fetchSamples, Event.manualEntry]) :=
  ⟨(sample_fetch_failure_nonfatal [spGithub] baseOracles cfg0 1 1 "net down").1,
    (sample_fetch_failure_nonfatal [spGithub] baseOracles cfg0 1 1 "net down").2.1
      (by decide) rfl,
    (sample_fetch_failure_nonfatal [spGithub] baseOracles ⟨[], false, false⟩ 1 1 "net down").2.2
      rfl⟩

/-- One configured provider contributes to the view list exactly one entry
when some supported id matches it (given distinct supported ids), none
otherwise. -/
theorem filterMap_views_of_nodup (gp : GitProvider) :
    ∀ sps : List SupportedProvider, (sps.map (fun x => x.Id)).Nodup →
      ((sps.filterMap fun supportedProvider =>
        if gp.ProviderId == supportedProvider.Id then
          some ({ Id := gp.Id, ProviderId := gp.ProviderId, Name := supportedProvider.Name,
                  Username := gp.Username, Alias := gp.Alias } : GitProviderView)
        else none).map viewKey) =
      (if sps.any (fun x => gp.ProviderId == x.Id) then [providerKey gp] else []) := by
  intro sps
  induction sps with
  | nil => simp
  | cons sp rest ih =>
    intro hnodup
    rw [List.map_cons, List.nodup_cons] at hnodup
    obtain ⟨hnotmem, hrest⟩ := hnodup
    by_cases hmatch : (gp.ProviderId == sp.Id) = true
    · have heq : gp.ProviderId = sp.Id := by simpa using hmatch
      have hnone : rest.any (fun x => gp.ProviderId == x.Id) = false := by
        rw [List.any_eq_false]
        intro x hx
        simp only [heq, beq_iff_eq]
        intro hxe
        exact hnotmem (by rw [hxe]; exact List.mem_map_of_mem (fun y => y.Id) hx)
      have hrec := ih hrest
      rw [hnone] at hrec
      simp only [Bool.false_eq_true, if_false] at hrec
      simp only [List.filterMap_cons, hmatch, List.any_cons]
      simp [hrec, viewKey, providerKey]
      intro a ha
      simpa using List.any_eq_false.mp hnone a ha
    · have hb : (gp.ProviderId == sp.Id) = false := (Bool.not_eq_true _).mp hmatch
      simp only [List.filterMap_cons, hb, List.any_cons]
      simpa using ih hrest

/-- Unfolding of the view-list construction on a cons cell. -/
theorem buildGitProviderViewList_cons (gp : GitProvider) (rest : List GitProvider)
    (sps : List SupportedProvider) :
    buildGitProviderViewList (gp :: rest) sps =
      (sps.filterMap fun supportedProvider =>
        if gp.ProviderId == supportedProvider.Id then
          some ({ Id := gp.Id, ProviderId := gp.ProviderId, Name := supportedProvider.Name,
                  Username := gp.Username, Alias := gp.Alias } : GitProviderView)
        else none)
      ++ buildGitProviderViewList rest sps := by
  simp [buildGitProviderViewList]

/-- C9: the provider choice list presented to the user carries exactly the
configured providers whose ProviderId equals the Id of some supported
provider, in configuration order (the supported-provider ids being
pairwise distinct). -/
theorem provider_view_list_filters_supported
    (ups : List GitProvider) (sps : List SupportedProvider)
    (hnodup : (sps.map (fun x => x.Id)).Nodup) :
    (buildGitProviderViewList ups sps).map viewKey =
      (ups.filter (fun gp => sps.any (fun x => gp.ProviderId == x.Id))).map providerKey := by
  induction ups with
  | nil => simp [buildGitProviderViewList]
  | cons gp rest ih =>
    rw [buildGitProviderViewList_cons, List.map_append, filterMap_views_of_nodup gp sps hnodup,
      ih]
    by_cases hany : sps.any (fun x => gp.ProviderId == x.Id) = true
    · rw [if_pos hany, List.filter_cons]
      simp [hany]
    · have hb : sps.any (fun x => gp.ProviderId == x.Id) = false :=
        (Bool.not_eq_true _).mp hany
      rw [if_neg hany, List.filter_cons]
      simp [hb]

/-- Witness for C9: a matching and a non-matching configured provider; only
the matching one appears in the view list, in order. -/
theorem provider_view_list_filters_supported_witness :
    (buildGitProviderViewList [gpCfg, ⟨"cfg2", "unknown", "bob", ""⟩]
        [spGithub, spGitlab]).map viewKey =
      (([gpCfg, ⟨"cfg2", "unknown", "bob", ""⟩].filter
        (fun gp => [spGithub, spGitlab].any (fun x => gp.ProviderId == x.Id))).map
          providerKey) :=
  provider_view_list_filters_supported [gpCfg, ⟨"cfg2", "unknown", "bob", ""⟩]
    [spGithub, spGitlab] (by decide)

end Daytona
